import Mathlib

/-!
Verification of the aircraft-metadata resolution core of the flight-tracker
repository (the `GET` route handler in the aircraft-info API route and the
helper functions it calls).  Every definition below is a shallow embedding of
the corresponding TypeScript function; network and database I/O is modelled
by provider oracles supplied as inputs, and each adapter's `catch`-and-return
behaviour is reflected by mapping a failed oracle outcome to an empty
contribution, exactly as the source's adapters do.
-/

set_option maxRecDepth 8000

/-! ## JavaScript string primitives used by the source -/

/-- JS truthiness of a `string | null` value: `null`, `undefined` and the
empty string are falsy. -/
def jsTruthy : Option String → Bool
  | none => false
  | some s => !(s == "")

/-- JS `a || b` on `string | null` operands: the first operand if truthy,
otherwise the second. -/
def jsOrOpt (a b : Option String) : Option String :=
  if jsTruthy a then a else b

/-- JS `a || b` on plain strings (empty string is falsy). -/
def jsOrStr (a b : String) : String :=
  if a == "" then b else a

/-- JS `s || null` coercion of a string to `string | null`. -/
def strOrNull (s : String) : Option String :=
  if s == "" then none else some s

/-- JS `String.prototype.trim` (ASCII whitespace suffices for the data the
source handles). -/
def jsTrim (s : String) : String :=
  ⟨((s.data.dropWhile Char.isWhitespace).reverse.dropWhile Char.isWhitespace).reverse⟩

/-- JS `String.prototype.toUpperCase` (the source only feeds it ASCII). -/
def jsUpper (s : String) : String :=
  ⟨s.data.map Char.toUpper⟩

/-- JS `String.prototype.startsWith`. -/
def strStartsWith (s p : String) : Bool :=
  p.data.isPrefixOf s.data

/-- JS `String.prototype.substring(n)`. -/
def strDrop (s : String) (n : Nat) : String :=
  ⟨s.data.drop n⟩

/-- Length of a string in characters. -/
def strLen (s : String) : Nat :=
  s.data.length

/-- Helper for JS `String.prototype.includes`: does `p` occur as a
contiguous run inside `l`? -/
def listContainsSeq (p : List Char) : List Char → Bool
  | [] => p.isPrefixOf []
  | c :: rest => p.isPrefixOf (c :: rest) || listContainsSeq p rest

/-- JS `String.prototype.includes`. -/
def strContainsSeq (s p : String) : Bool :=
  listContainsSeq p.data s.data

/-- Fuel-driven splitter implementing JS `String.prototype.split(sep)` for a
non-empty separator; the fuel is always instantiated to more than the input
length, so the `0` case is unreachable. -/
def splitSeqF (sep : List Char) : Nat → List Char → List (List Char)
  | 0, l => [l]
  | _ + 1, [] => [[]]
  | n + 1, c :: rest =>
    if sep.isPrefixOf (c :: rest) then
      [] :: splitSeqF sep n (rest.drop (sep.length - 1))
    else
      match splitSeqF sep n rest with
      | [] => [[c]]
      | h :: t => (c :: h) :: t

/-- JS `String.prototype.split(sep)` for a non-empty separator. -/
def jsSplit (s sep : String) : List String :=
  (splitSeqF sep.data (s.data.length + 1) s.data).map (fun l => ⟨l⟩)

/-- JS `v.replace(/"/g, '')`: removes every double quote. -/
def stripQuotes (s : String) : String :=
  ⟨s.data.filter (fun c => !(c == '"'))⟩

/-- Matches the regex class `[A-Z0-9]` used for registration suffixes. -/
def isUpperAlnum (c : Char) : Bool :=
  ('A' ≤ c && c ≤ 'Z') || ('0' ≤ c && c ≤ '9')

/-! ## Category classifier (source: `getAircraftCategory`, lines 428-470) -/

/-- Embedding of `getAircraftCategory(model: string | null)`: case-insensitive
substring matching against the source's ordered rule groups. -/
def getAircraftCategory (model : Option String) : String :=
  if !(jsTruthy model) then "unknown"
  else
    let m := jsTrim (jsUpper (model.getD ""))
    if strContainsSeq m "A350" || strContainsSeq m "A380" ||
       strContainsSeq m "B747" || strContainsSeq m "B777" ||
       strContainsSeq m "B787" || strContainsSeq m "B767" then "A5"
    else if strContainsSeq m "A3" || strContainsSeq m "B7" || strContainsSeq m "B757" ||
       strContainsSeq m "A300" || strContainsSeq m "A310" ||
       strContainsSeq m "MD80" || strContainsSeq m "MD90" then "A3"
    else if strContainsSeq m "E170" || strContainsSeq m "E175" || strContainsSeq m "E190" ||
       strContainsSeq m "E195" || strContainsSeq m "E275" || strContainsSeq m "E290" ||
       strContainsSeq m "E295" || strContainsSeq m "CRJ" || strContainsSeq m "ATR" ||
       strContainsSeq m "DASH8" || strContainsSeq m "Q400" then "A2"
    else if strContainsSeq m "CESSNA" || strContainsSeq m "PIPER" ||
       strContainsSeq m "BEECHCRAFT" || strContainsSeq m "CIRRUS" ||
       strContainsSeq m "DIAMOND" || strContainsSeq m "ROBIN" then "A1"
    else if strContainsSeq m "HELICOPTER" || strContainsSeq m "ROTORCRAFT" ||
       strContainsSeq m "H125" || strContainsSeq m "H135" || strContainsSeq m "H145" ||
       strContainsSeq m "H175" || strContainsSeq m "AW139" || strContainsSeq m "AW169" ||
       strContainsSeq m "AW189" then "B1"
    else "unknown"

/-! ## Callsign-to-registration extraction
(source: `extractRegistrationFromCallsign`, lines 473-562) -/

/-- The static country-prefix table, transcribed from the source verbatim,
in source order and with the source's duplicate entries preserved. -/
def registrationPrefixList : List String :=
  -- Czech Republic
  ["OK", "OL", "OM", "ON", "OO", "OP", "OQ", "OR", "OS", "OT", "OU", "OV", "OW", "OX", "OY", "OZ",
  -- Poland
   "SP", "SN", "SO", "SO", "SQ", "SR", "SS", "ST", "SU", "SV", "SW", "SX", "SY", "SZ",
  -- Germany
   "D", "DA", "DB", "DC", "DD", "DE", "DF", "DG", "DH", "DI", "DJ", "DK", "DL", "DM", "DN", "DO", "DP", "DQ", "DR", "DS", "DT", "DU", "DV", "DW", "DX", "DY", "DZ",
  -- Austria
   "OE", "OF", "OG", "OH", "OI", "OJ", "OK", "OL", "OM", "ON", "OO", "OP", "OQ", "OR", "OS", "OT", "OU", "OV", "OW", "OX", "OY", "OZ",
  -- United Kingdom
   "G", "GA", "GB", "GC", "GD", "GE", "GF", "GG", "GH", "GI", "GJ", "GK", "GL", "GM", "GN", "GO", "GP", "GQ", "GR", "GS", "GT", "GU", "GV", "GW", "GX", "GY", "GZ",
  -- Switzerland
   "HB", "HC", "HD", "HE", "HF", "HG", "HH", "HI", "HJ", "HK", "HL", "HM", "HN", "HO", "HP", "HQ", "HR", "HS", "HT", "HU", "HV", "HW", "HX", "HY", "HZ",
  -- Luxembourg
   "LX", "LY", "LZ",
  -- Hungary
   "HA", "HB", "HC", "HD", "HE", "HF", "HG", "HH", "HI", "HJ", "HK", "HL", "HM", "HN", "HO", "HP", "HQ", "HR", "HS", "HT", "HU", "HV", "HW", "HX", "HY", "HZ",
  -- France
   "F", "FA", "FB", "FC", "FD", "FE", "FF", "FG", "FH", "FI", "FJ", "FK", "FL", "FM", "FN", "FO", "FP", "FQ", "FR", "FS", "FT", "FU", "FV", "FW", "FX", "FY", "FZ",
  -- Italy
   "I", "IA", "IB", "IC", "ID", "IE", "IF", "IG", "IH", "II", "IJ", "IK", "IL", "IM", "IN", "IO", "IP", "IQ", "IR", "IS", "IT", "IU", "IV", "IW", "IX", "IY", "IZ",
  -- Spain
   "EC", "ED", "EE", "EF", "EG", "EH", "EI", "EJ", "EK", "EL", "EM", "EN", "EO", "EP", "EQ", "ER", "ES", "ET", "EU", "EV", "EW", "EX", "EY", "EZ",
  -- Netherlands
   "PH", "PI", "PJ", "PK", "PL", "PM", "PN", "PO", "PP", "PQ", "PR", "PS", "PT", "PU", "PV", "PW", "PX", "PY", "PZ",
  -- Belgium
   "OO", "OP", "OQ", "OR", "OS", "OT", "OU", "OV", "OW", "OX", "OY", "OZ",
  -- Denmark
   "OY", "OZ",
  -- Norway
   "LN", "LO", "LP", "LQ", "LR", "LS", "LT", "LU", "LV", "LW", "LX", "LY", "LZ",
  -- Sweden
   "SE", "SF", "SG", "SH", "SI", "SJ", "SK", "SL", "SM", "SN", "SO", "SP", "SQ", "SR", "SS", "ST", "SU", "SV", "SW", "SX", "SY", "SZ",
  -- Finland
   "OH", "OI", "OJ", "OK", "OL", "OM", "ON", "OO", "OP", "OQ", "OR", "OS", "OT", "OU", "OV", "OW", "OX", "OY", "OZ",
  -- Estonia
   "ES", "ET", "EU", "EV", "EW", "EX", "EY", "EZ",
  -- Latvia
   "YL", "YM", "YN", "YO", "YP", "YQ", "YR", "YS", "YT", "YU", "YV", "YW", "YX", "YY", "YZ",
  -- Lithuania
   "LY", "LZ",
  -- Slovakia
   "OM", "ON", "OO", "OP", "OQ", "OR", "OS", "OT", "OU", "OV", "OW", "OX", "OY", "OZ",
  -- Slovenia
   "S5", "S6", "S7", "S8", "S9",
  -- Croatia
   "9A", "9B", "9C", "9D", "9E", "9F", "9G", "9H", "9I", "9J", "9K", "9L", "9M", "9N", "9O", "9P", "9Q", "9R", "9S", "9T", "9U", "9V", "9W", "9X", "9Y", "9Z",
  -- Serbia
   "YU", "YV", "YW", "YX", "YY", "YZ",
  -- Bulgaria
   "LZ", "L1", "L2", "L3", "L4", "L5", "L6", "L7", "L8", "L9",
  -- Romania
   "YR", "YS", "YT", "YU", "YV", "YW", "YX", "YY", "YZ",
  -- Greece
   "SX", "SY", "SZ",
  -- Cyprus
   "5B", "5C", "5D", "5E", "5F", "5G", "5H", "5I", "5J", "5K", "5L", "5M", "5N", "5O", "5P", "5Q", "5R", "5S", "5T", "5U", "5V", "5W", "5X", "5Y", "5Z",
  -- Malta
   "9H", "9I", "9J", "9K", "9L", "9M", "9N", "9O", "9P", "9Q", "9R", "9S", "9T", "9U", "9V", "9W", "9X", "9Y", "9Z",
  -- Ireland
   "EI", "EJ", "EK", "EL", "EM", "EN", "EO", "EP", "EQ", "ER", "ES", "ET", "EU", "EV", "EW", "EX", "EY", "EZ",
  -- Portugal
   "CS", "CT", "CU", "CV", "CW", "CX", "CY", "CZ",
  -- Iceland
   "TF", "TG", "TH", "TI", "TJ", "TK", "TL", "TM", "TN", "TO", "TP", "TQ", "TR", "TS", "TT", "TU", "TV", "TW", "TX", "TY", "TZ"]

/-- The `for (const prefix of registrationPrefixes)` loop body: the first
table entry that is a prefix of the cleaned callsign AND leaves a valid
1-3 character alphanumeric suffix wins; otherwise the scan continues. -/
def scanRegPrefixes : List String → String → Option String
  | [], _ => none
  | p :: ps, clean =>
    if strStartsWith clean p then
      let suffix := strDrop clean (strLen p)
      if suffix.data.length ≥ 1 && suffix.data.length ≤ 3 then
        if suffix.data.all isUpperAlnum then some (p ++ "-" ++ suffix)
        else scanRegPrefixes ps clean
      else scanRegPrefixes ps clean
    else scanRegPrefixes ps clean

/-- Embedding of `extractRegistrationFromCallsign(callsign: string | null)`. -/
def extractRegistrationFromCallsign (callsign : Option String) : Option String :=
  if !(jsTruthy callsign) then none
  else
    let clean := jsUpper (jsTrim (callsign.getD ""))
    scanRegPrefixes registrationPrefixList clean

/-! ## Data model (source: `interface AircraftInfo`, lines 11-21) -/

/-- The merged aircraft record: every field is `string | null`. -/
structure AircraftInfo where
  registration : Option String := none
  model : Option String := none
  manufacturer : Option String := none
  owner : Option String := none
  operator : Option String := none
  yearBuilt : Option String := none
  engineType : Option String := none
  category : Option String := none
  photoUrl : Option String := none
deriving DecidableEq, Repr

/-- A provider contribution, `Partial<AircraftInfo>` in the source: each
field is either absent (`none`, the key is missing from the object) or
present with a `string | null` value (`some v`). -/
structure PartInfo where
  registration : Option (Option String) := none
  model : Option (Option String) := none
  manufacturer : Option (Option String) := none
  owner : Option (Option String) := none
  operator : Option (Option String) := none
  yearBuilt : Option (Option String) := none
  engineType : Option (Option String) := none
  category : Option (Option String) := none
  photoUrl : Option (Option String) := none
deriving DecidableEq, Repr

/-- JS object spread `{ ...acc, ...p }`: a key present in `p` overwrites the
accumulator's value (even with `null`); an absent key leaves it unchanged. -/
def spread (acc : AircraftInfo) (p : PartInfo) : AircraftInfo where
  registration := p.registration.getD acc.registration
  model := p.model.getD acc.model
  manufacturer := p.manufacturer.getD acc.manufacturer
  owner := p.owner.getD acc.owner
  operator := p.operator.getD acc.operator
  yearBuilt := p.yearBuilt.getD acc.yearBuilt
  engineType := p.engineType.getD acc.engineType
  category := p.category.getD acc.category
  photoUrl := p.photoUrl.getD acc.photoUrl

/-- Reading a possibly-absent `string | null` field of a contribution the way
JS does (an absent key reads as `undefined`, which we conflate with `null`,
both being falsy and both rendering the field "not set"). -/
def ooJoin (x : Option (Option String)) : Option String :=
  x.getD none

/-! ## Provider adapters.  Each adapter's network/database outcome is an
oracle value; `none` stands for any absorbed failure (timeout, non-success
HTTP status, malformed or empty payload), for which the source returns `{}`.
The field values carried by a successful outcome are the values the source's
field-by-field `data.x || null` extraction produces. -/

/-- Payload of a successful OpenSky metadata response after the source's
field extraction (source lines 50-58). -/
structure OpenSkyData where
  registration : Option String := none
  model : Option String := none
  manufacturer : Option String := none
  owner : Option String := none
  operator : Option String := none
  yearBuilt : Option String := none
  engineType : Option String := none
deriving DecidableEq, Repr

/-- `getOpenSkyInfo` as a function of its oracle outcome: failure gives `{}`,
success gives an object with exactly the seven keys of lines 50-58 present. -/
def getOpenSkyInfo : Option OpenSkyData → PartInfo
  | none => {}
  | some d =>
    { registration := some d.registration, model := some d.model,
      manufacturer := some d.manufacturer, owner := some d.owner,
      operator := some d.operator, yearBuilt := some d.yearBuilt,
      engineType := some d.engineType }

/-- The aircraft-details part of a Planespotters response (source lines
126-132), present only when the aircraft endpoint succeeded with data. -/
structure PsAircraft where
  model : Option String := none
  manufacturer : Option String := none
  owner : Option String := none
  operator : Option String := none
  yearBuilt : Option String := none
deriving DecidableEq, Repr

/-- Outcome of a Planespotters call that did not fail outright: the photo URL
selected at lines 87-109 (possibly `null`) and the optional aircraft part. -/
structure PsOutcome where
  photoUrl : Option String := none
  aircraft : Option PsAircraft := none
deriving DecidableEq, Repr

/-- `getPlanespottersInfo` as a function of its oracle outcome.  An outright
failure (outer `catch`, line 152) gives `{}`; otherwise the result is
`{ ...aircraftInfo, photoUrl }` (line 139-142): `photoUrl` is always a
present key, the five aircraft keys are present only when the aircraft
endpoint yielded data. -/
def getPlanespottersInfo : Option PsOutcome → PartInfo
  | none => {}
  | some o =>
    match o.aircraft with
    | none => { photoUrl := some o.photoUrl }
    | some a =>
      { model := some a.model, manufacturer := some a.manufacturer,
        owner := some a.owner, operator := some a.operator,
        yearBuilt := some a.yearBuilt, photoUrl := some o.photoUrl }

/-- Payload of a successful Supabase row lookup after the source's field
extraction (source lines 411-419). -/
structure SupaData where
  registration : Option String := none
  model : Option String := none
  manufacturer : Option String := none
  owner : Option String := none
  operator : Option String := none
  yearBuilt : Option String := none
  engineType : Option String := none
deriving DecidableEq, Repr

/-- `getSupabaseAircraftInfo` as a function of its oracle outcome. -/
def getSupabaseAircraftInfo : Option SupaData → PartInfo
  | none => {}
  | some d =>
    { registration := some d.registration, model := some d.model,
      manufacturer := some d.manufacturer, owner := some d.owner,
      operator := some d.operator, yearBuilt := some d.yearBuilt,
      engineType := some d.engineType }

/-- Payload of a successful FlightAware response (source lines 179-185). -/
structure FaData where
  model : Option String := none
  manufacturer : Option String := none
  owner : Option String := none
  operator : Option String := none
  yearBuilt : Option String := none
deriving DecidableEq, Repr

/-- `getFlightAwareInfo` as a function of its oracle outcome. -/
def getFlightAwareInfo : Option FaData → PartInfo
  | none => {}
  | some d =>
    { model := some d.model, manufacturer := some d.manufacturer,
      owner := some d.owner, operator := some d.operator,
      yearBuilt := some d.yearBuilt }

/-- Payload of a successful Aviation Stack response (source lines 229-233). -/
structure AsData where
  model : Option String := none
  manufacturer : Option String := none
  yearBuilt : Option String := none
deriving DecidableEq, Repr

/-- `getAviationStackInfo` as a function of its oracle outcome. -/
def getAviationStackInfo : Option AsData → PartInfo
  | none => {}
  | some d =>
    { model := some d.model, manufacturer := some d.manufacturer,
      yearBuilt := some d.yearBuilt }

/-! ## Bulk-dataset adapter (source: `getOpenSkyCSVInfo`, lines 245-374).
The download and its 24-hour cache are I/O; the parsing and lookup logic
applied to the fetched text is embedded below. -/

/-- The row loop of `getOpenSkyCSVInfo` (source lines 283-360): rows are
split on the literal `","` sequence, quotes are stripped, rows with fewer
than 20 resulting cells are skipped, and the first row whose second cell
equals the queried registration yields the contribution of lines 339-349. -/
def csvScanRows (registration : String) : List String → PartInfo
  | [] => {}
  | line :: rest =>
    if jsTrim line == "" then csvScanRows registration rest
    else
      let values := (jsSplit line "\",\"").map stripQuotes
      if values.length ≥ 20 then
        let reg := values.getD 1 ""
        if reg == registration then
          let manufacturerIcao := values.getD 2 ""
          let manufacturerName := values.getD 3 ""
          let model := values.getD 4 ""
          let typeCode := values.getD 5 ""
          let operatorCell := values.getD 9 ""
          let ownerCell := values.getD 13 ""
          let built := values.getD 18 ""
          let manufacturer := jsOrStr manufacturerName manufacturerIcao
          { registration := some (some reg),
            model := some (strOrNull (jsOrStr model typeCode)),
            manufacturer := some (strOrNull manufacturer),
            owner := some (strOrNull ownerCell),
            operator := some (strOrNull operatorCell),
            yearBuilt := some (strOrNull built),
            engineType := some none,
            category := some none,
            photoUrl := some none }
        else csvScanRows registration rest
      else csvScanRows registration rest

/-- `getOpenSkyCSVInfo` applied to a fetched CSV text: splits into lines and
skips the header row (the loop starts at index 1). -/
def getOpenSkyCSVInfo (csvText registration : String) : PartInfo :=
  csvScanRows registration ((jsSplit csvText "\n").drop 1)

/-! ## The resolution pipeline of the GET handler (source lines 564-741). -/

/-- One provider invocation (or callsign-derivation attempt) performed during
a resolution, recorded with its argument, in execution order. -/
inductive Ev where
  | opensky (arg : String)
  | planespotters (arg : String)
  | supabase (arg : String)
  | flightaware (arg : String)
  | aviationstack (arg : String)
  | deriveFromCallsign (arg : String)
deriving DecidableEq, Repr

/-- The provider oracles for one resolution, plus the two environment flags
that gate the optional registries.  Each oracle maps the argument the source
passes to the adapter to that call's outcome. -/
structure Providers where
  opensky : String → Option OpenSkyData
  planespotters : String → Option PsOutcome
  supabase : String → Option SupaData
  flightaware : String → Option FaData
  aviationstack : String → Option AsData
  flightawareKey : Bool := false
  aviationstackKey : Bool := false

/-- Result of running the resolution body: the final accumulator, the
invocation trace, the list of contributions that were field-merged into the
accumulator (in merge order; the callsign-derivation write of
`aircraftInfo.registration` at line 668 appears as a registration-only
contribution), and every successive accumulator state, starting from the
all-null initial record. -/
structure ResolveOut where
  acc : AircraftInfo
  trace : List Ev
  contribs : List PartInfo
  steps : List AircraftInfo
deriving Repr

/-- Source lines 679-709: with a target registration in hand, query
Planespotters, Supabase, and the two optional registries; `photoUrl` is set
from Planespotters only if truthy and is pinned (`photoUrl:
aircraftInfo.photoUrl`) in every subsequent spread. -/
def fullFallback (P : Providers) (targetReg : String) (acc0 : AircraftInfo) : ResolveOut :=
  let p := getPlanespottersInfo (P.planespotters targetReg)
  let acc1 := if jsTruthy (ooJoin p.photoUrl) then
      { acc0 with photoUrl := ooJoin p.photoUrl } else acc0
  let acc2 := { spread acc1 p with photoUrl := acc1.photoUrl }
  let q := getSupabaseAircraftInfo (P.supabase targetReg)
  let acc3 := { spread acc2 q with photoUrl := acc2.photoUrl }
  let base : ResolveOut :=
    ⟨acc3, [Ev.planespotters targetReg, Ev.supabase targetReg], [p, q], [acc1, acc2, acc3]⟩
  let withFa : ResolveOut :=
    if P.flightawareKey then
      let f := getFlightAwareInfo (P.flightaware targetReg)
      let acc4 := { spread base.acc f with photoUrl := base.acc.photoUrl }
      ⟨acc4, base.trace ++ [Ev.flightaware targetReg], base.contribs ++ [f], base.steps ++ [acc4]⟩
    else base
  if P.aviationstackKey then
    let a := getAviationStackInfo (P.aviationstack targetReg)
    let acc5 := { spread withFa.acc a with photoUrl := withFa.acc.photoUrl }
    ⟨acc5, withFa.trace ++ [Ev.aviationstack targetReg], withFa.contribs ++ [a], withFa.steps ++ [acc5]⟩
  else withFa

/-- Source lines 659-713: the part of the handler body that runs when the
early return was not taken — determine a target registration (falling back
to callsign derivation, and to a callsign-keyed photo fetch when derivation
fails), run the full fallback when a target registration exists, and finally
classify the model. -/
def afterPrimary (P : Providers) (registration callsign : Option String)
    (acc0 : AircraftInfo) : ResolveOut :=
  let target0 := jsOrOpt acc0.registration registration
  let csBlock : ResolveOut × Option String :=
    if !(jsTruthy target0) && jsTruthy callsign then
      let cs := callsign.getD ""
      let ext := extractRegistrationFromCallsign callsign
      if jsTruthy ext then
        let acc1 := { acc0 with registration := ext }
        (⟨acc1, [Ev.deriveFromCallsign cs], [{ registration := some ext }], [acc1]⟩, ext)
      else
        let p := getPlanespottersInfo (P.planespotters cs)
        let acc1 := if jsTruthy (ooJoin p.photoUrl) then
            { acc0 with photoUrl := ooJoin p.photoUrl } else acc0
        (⟨acc1, [Ev.deriveFromCallsign cs, Ev.planespotters cs], [], [acc1]⟩, target0)
    else (⟨acc0, [], [], []⟩, target0)
  let main : ResolveOut :=
    if jsTruthy csBlock.2 then
      let ff := fullFallback P (csBlock.2.getD "") csBlock.1.acc
      ⟨ff.acc, csBlock.1.trace ++ ff.trace, csBlock.1.contribs ++ ff.contribs,
       csBlock.1.steps ++ ff.steps⟩
    else csBlock.1
  let accF := { main.acc with category := some (getAircraftCategory main.acc.model) }
  ⟨accF, main.trace, main.contribs, main.steps ++ [accF]⟩

/-- Source lines 595-713: the whole resolution body of one GET request (after
validation and cache lookup).  When a transponder code is supplied, OpenSky
is queried first, the Supabase fallback of lines 616-621 may run, and the
early-return path of lines 624-656 (classification plus a best-effort photo
fetch) short-circuits the rest. -/
def resolve (P : Providers) (icao24 registration callsign : Option String) : ResolveOut :=
  let acc0 : AircraftInfo := {}
  if jsTruthy icao24 then
    let ic := icao24.getD ""
    let p1 := getOpenSkyInfo (P.opensky ic)
    let acc1 := spread acc0 p1
    let fb : ResolveOut :=
      if !(jsTruthy (ooJoin p1.model)) && jsTruthy (ooJoin p1.registration) then
        let reg := (ooJoin p1.registration).getD ""
        let p2 := getSupabaseAircraftInfo (P.supabase reg)
        ⟨spread acc1 p2, [Ev.supabase reg], [p2], [spread acc1 p2]⟩
      else ⟨acc1, [], [], []⟩
    let acc2 := fb.acc
    if jsTruthy acc2.registration || jsTruthy acc2.model then
      let acc3 := { acc2 with category := some (getAircraftCategory acc2.model) }
      let post : ResolveOut :=
        if jsTruthy acc3.registration then
          let reg := acc3.registration.getD ""
          let p := getPlanespottersInfo (P.planespotters reg)
          let acc4 := if jsTruthy (ooJoin p.photoUrl) then
              { acc3 with photoUrl := ooJoin p.photoUrl } else acc3
          ⟨acc4, [Ev.planespotters reg], [], [acc4]⟩
        else ⟨acc3, [], [], []⟩
      ⟨post.acc, Ev.opensky ic :: fb.trace ++ post.trace,
       p1 :: fb.contribs ++ post.contribs,
       acc0 :: acc1 :: fb.steps ++ acc3 :: post.steps⟩
    else
      let rest := afterPrimary P registration callsign acc2
      ⟨rest.acc, Ev.opensky ic :: fb.trace ++ rest.trace,
       p1 :: fb.contribs ++ rest.contribs,
       acc0 :: acc1 :: fb.steps ++ rest.steps⟩
  else
    let rest := afterPrimary P registration callsign acc0
    ⟨rest.acc, rest.trace, rest.contribs, acc0 :: rest.steps⟩

/-! ## The GET handler with its response cache (source lines 564-741). -/

/-- One entry of the in-memory `apiCache` map. -/
structure ApiCacheEntry where
  key : String
  data : AircraftInfo
  timestamp : Nat
deriving DecidableEq, Repr

/-- The `apiCache` map, modelled as a list in which the most recent entry for
a key shadows older ones (observationally equal to `Map.set`/`Map.get`). -/
abbrev CacheState := List ApiCacheEntry

/-- `apiCache.get(key)`. -/
def cacheGet (c : CacheState) (k : String) : Option (AircraftInfo × Nat) :=
  match c.find? (fun e => e.key == k) with
  | some e => some (e.data, e.timestamp)
  | none => none

/-- `CACHE_DURATION = 5 * 60 * 1000` milliseconds (source line 5). -/
def CACHE_DURATION : Nat := 5 * 60 * 1000

/-- The handler's observable reply: the 400 insufficient-identifier error of
line 571, or a success JSON with its `data` record and `cached` flag (the
diagnostic `sources` object carries no record data and is omitted). -/
inductive ApiResponse where
  | badRequest
  | ok (data : AircraftInfo) (cached : Bool)
deriving DecidableEq, Repr

/-- Outcome of one GET request: the reply, the cache state afterwards, and
the resolution's trace, contributions and accumulator history (all empty
when the request was rejected or served from cache). -/
structure GetOut where
  resp : ApiResponse
  cache : CacheState
  trace : List Ev
  contribs : List PartInfo
  steps : List AircraftInfo
deriving Repr

/-- Embedding of the exported `GET` handler: validation (line 570), cache
lookup keyed on `icao24 || registration || ''` (lines 576-593), resolution,
and the cache commit (lines 637-641 and 715-719).  `now` is the value
`Date.now()` returns during this request. -/
def GETaircraftInfo (cache : CacheState) (now : Nat) (P : Providers)
    (icao24 registration callsign : Option String) : GetOut :=
  if !(jsTruthy icao24) && !(jsTruthy registration) then
    ⟨ApiResponse.badRequest, cache, [], [], []⟩
  else
    let cacheKey := (jsOrOpt icao24 registration).getD ""
    match cacheGet cache cacheKey with
    | some (d, ts) =>
      if (now : Int) - (ts : Int) < (CACHE_DURATION : Int) then
        ⟨ApiResponse.ok d true, cache, [], [], []⟩
      else
        let rr := resolve P icao24 registration callsign
        ⟨ApiResponse.ok rr.acc false, ⟨cacheKey, rr.acc, now⟩ :: cache,
         rr.trace, rr.contribs, rr.steps⟩
    | none =>
      let rr := resolve P icao24 registration callsign
      ⟨ApiResponse.ok rr.acc false, ⟨cacheKey, rr.acc, now⟩ :: cache,
       rr.trace, rr.contribs, rr.steps⟩

/-! ## Concrete provider fixtures used by the claim-level scenarios -/

/-- Every provider call fails (timeout / error / empty payload); no optional
registry is configured. -/
def failingProviders : Providers where
  opensky := fun _ => none
  planespotters := fun _ => none
  supabase := fun _ => none
  flightaware := fun _ => none
  aviationstack := fun _ => none

/-- Scenario oracles for the merge counterexample: OpenSky knows only the
owner, Planespotters later returns aircraft details whose owner field is
`null`. -/
def mergeCexProviders : Providers where
  opensky := fun _ => some { owner := some "Alice" }
  planespotters := fun _ =>
    some { photoUrl := none, aircraft := some { model := some "737" } }
  supabase := fun _ => none
  flightaware := fun _ => none
  aviationstack := fun _ => none

/-- Scenario oracles for the photo-stability witness: Planespotters finds a
photo for the supplied registration. -/
def photoProviders : Providers where
  opensky := fun _ => none
  planespotters := fun _ => some { photoUrl := some "http://photo" }
  supabase := fun _ => none
  flightaware := fun _ => none
  aviationstack := fun _ => none

/-- The worst-case record of the failure-semantics claim: every field null
except the category, which the classifier maps to `"unknown"`. -/
def worstCaseRecord : AircraftInfo := { category := some "unknown" }

/-! ## Bulk-dataset fixtures for the CSV lookup scenario -/

/-- A 21-column header row in the upstream dataset's quoting style. -/
def csvHeaderRow : String :=
  "\"icao24\",\"registration\",\"manufacturericao\",\"manufacturername\",\"model\",\"typecode\",\"c06\",\"c07\",\"c08\",\"operator\",\"c10\",\"c11\",\"c12\",\"owner\",\"c14\",\"c15\",\"c16\",\"c17\",\"built\",\"c19\",\"c20\""

/-- The scenario row exactly as the claim writes it: the first cell is NOT
quoted, the rest are (21 columns in total). -/
def csvLiteralRow : String :=
  "icao24,\"SP-LRD\",\"BOE\",\"Boeing\",\"737-800\",\"B738\",\"c06\",\"c07\",\"c08\",\"LOT\",\"c10\",\"c11\",\"c12\",\"OwnerCo\",\"c14\",\"c15\",\"c16\",\"c17\",\"2005\",\"c19\",\"c20\""

/-- The same scenario row with every cell quoted, matching the upstream
dataset's actual format. -/
def csvQuotedRow : String :=
  "\"icao24\",\"SP-LRD\",\"BOE\",\"Boeing\",\"737-800\",\"B738\",\"c06\",\"c07\",\"c08\",\"LOT\",\"c10\",\"c11\",\"c12\",\"OwnerCo\",\"c14\",\"c15\",\"c16\",\"c17\",\"2005\",\"c19\",\"c20\""

/-! ## Field-stability notions for the merge claims -/

/-- First-write-wins stability of the field selected by `f` along a history
of accumulator states: once the field holds `some v` at position `i`, every
later recorded position still holds `some v`. -/
def fieldStable (f : AircraftInfo → Option String) (l : List AircraftInfo) : Prop :=
  ∀ i j v w, i ≤ j → (l.map f).get? i = some (some v) →
    (l.map f).get? j = some w → w = some v

/-- A history whose `photoUrl` column is a (possibly empty) run of `none`
followed by a constant run. -/
def photoNTC (l : List AircraftInfo) : Prop :=
  ∃ p q u, l = p ++ q ∧ (∀ x ∈ p, x.photoUrl = none) ∧ (∀ x ∈ q, x.photoUrl = u)

/-- Left fold of JS object spread over a list of contributions. -/
def mergeAll (acc : AircraftInfo) (l : List PartInfo) : AircraftInfo :=
  l.foldl spread acc

/-- Componentwise agreement on every field except `photoUrl` and
`category` (the two fields with write rules of their own). -/
def nonPhotoAgree (a b : AircraftInfo) : Prop :=
  a.registration = b.registration ∧ a.model = b.model ∧
  a.manufacturer = b.manufacturer ∧ a.owner = b.owner ∧
  a.operator = b.operator ∧ a.yearBuilt = b.yearBuilt ∧
  a.engineType = b.engineType

theorem fieldStable_photo_of_photoNTC {l : List AircraftInfo} (h : photoNTC l) :
    fieldStable (fun a => a.photoUrl) l := by
  obtain ⟨p, q, u, rfl, hp, hq⟩ := h
  intro i j v w hij hi hj
  rw [List.map_append] at hi hj
  by_cases hilt : i < (p.map (fun a => a.photoUrl)).length
  · rw [List.get?_append hilt] at hi
    have := List.get?_mem hi
    obtain ⟨a, ha, hfa⟩ := List.mem_map.mp this
    exact absurd (hfa ▸ hp a ha) (by simp)
  · push_neg at hilt
    rw [List.get?_append_right hilt] at hi
    have hu : u = some v := by
      have := List.get?_mem hi
      obtain ⟨a, ha, hfa⟩ := List.mem_map.mp this
      rw [← hfa]; exact (hq a ha).symm
    have hjlt : (p.map (fun a => a.photoUrl)).length ≤ j := le_trans hilt hij
    rw [List.get?_append_right hjlt] at hj
    have := List.get?_mem hj
    obtain ⟨a, ha, hfa⟩ := List.mem_map.mp this
    rw [← hfa, hq a ha, hu]

theorem photoNTC_of_const (u : Option String) {l : List AircraftInfo}
    (h : ∀ x ∈ l, x.photoUrl = u) : photoNTC l :=
  ⟨[], l, u, rfl, by simp, h⟩

theorem photoNTC_cons_none {l : List AircraftInfo} {a : AircraftInfo}
    (ha : a.photoUrl = none) (h : photoNTC l) : photoNTC (a :: l) := by
  obtain ⟨p, q, u, rfl, hp, hq⟩ := h
  exact ⟨a :: p, q, u, rfl, by
    intro x hx
    rcases List.mem_cons.mp hx with h | h
    · exact h ▸ ha
    · exact hp x h, hq⟩

theorem photoNTC_append_none {l₁ l₂ : List AircraftInfo}
    (h₁ : ∀ x ∈ l₁, x.photoUrl = none) (h₂ : photoNTC l₂) : photoNTC (l₁ ++ l₂) := by
  obtain ⟨p, q, u, rfl, hp, hq⟩ := h₂
  refine ⟨l₁ ++ p, q, u, by simp, ?_, hq⟩
  intro x hx
  rcases List.mem_append.mp hx with h | h
  · exact h₁ x h
  · exact hp x h

/-! ## Photo behaviour of the pipeline phases -/

theorem getOpenSkyInfo_photoUrl (d : Option OpenSkyData) :
    (getOpenSkyInfo d).photoUrl = none := by
  cases d <;> rfl

theorem getSupabaseAircraftInfo_photoUrl (d : Option SupaData) :
    (getSupabaseAircraftInfo d).photoUrl = none := by
  cases d <;> rfl

theorem spread_photoUrl (acc : AircraftInfo) (p : PartInfo) :
    (spread acc p).photoUrl = p.photoUrl.getD acc.photoUrl := rfl

/-- Inside the full-fallback block every recorded accumulator state carries
the same `photoUrl`: the value set (at most once) from Planespotters, pinned
by every later spread. -/
theorem fullFallback_photo_const (P : Providers) (t : String) (acc0 : AircraftInfo) :
    ∀ x ∈ (fullFallback P t acc0).steps,
      x.photoUrl = (fullFallback P t acc0).acc.photoUrl := by
  unfold fullFallback
  dsimp only
  split_ifs <;>
    simp only [List.forall_mem_append, List.forall_mem_cons, List.not_mem_nil,
      false_implies, implies_true, and_true, true_and]

/-- The photo column of the post-early-return phase is a run of `none`
followed by a constant run, provided it starts with a null photo (which
every caller guarantees): the only photo write is the guarded Planespotters
set, after which the value is pinned. -/
theorem afterPrimary_photoNTC (P : Providers) (r cs : Option String)
    (acc0 : AircraftInfo) (h : acc0.photoUrl = none) :
    photoNTC (afterPrimary P r cs acc0).steps := by
  unfold afterPrimary
  dsimp only
  split_ifs with c1 c2 c3 c4 c5 c6
  · -- callsign derivation succeeded; full fallback runs on the derived target
    simp only [List.append_assoc, List.cons_append, List.nil_append]
    refine photoNTC_cons_none h (photoNTC_of_const
      (fullFallback P ((extractRegistrationFromCallsign cs).getD "")
        { acc0 with registration := extractRegistrationFromCallsign cs }).acc.photoUrl ?_)
    rw [List.forall_mem_append]
    refine ⟨fullFallback_photo_const P _ _, ?_⟩
    intro x hx
    rw [List.mem_singleton] at hx
    subst hx
    rfl
  · -- impossible: the callsign block ran, so the target was falsy
    exact absurd c4 (by simp only [Bool.and_eq_true, Bool.not_eq_true'] at c1; simp [c1.1])
  · -- derivation failed, photo fallback set a photo; no target remains
    simp only [List.append_assoc, List.cons_append, List.nil_append]
    exact photoNTC_of_const (ooJoin (getPlanespottersInfo (P.planespotters (cs.getD ""))).photoUrl)
      (by
        intro x hx
        rcases List.mem_cons.mp hx with rfl | hx
        · rfl
        · rw [List.mem_singleton] at hx; subst hx; rfl)
  · -- impossible: the callsign block ran, so the target was falsy
    exact absurd c5 (by simp only [Bool.and_eq_true, Bool.not_eq_true'] at c1; simp [c1.1])
  · -- derivation failed, no photo found; no target remains
    simp only [List.append_assoc, List.cons_append, List.nil_append]
    exact photoNTC_of_const none
      (by
        intro x hx
        rcases List.mem_cons.mp hx with rfl | hx
        · exact h
        · rw [List.mem_singleton] at hx; subst hx; exact h)
  · -- no callsign block; a target registration exists, full fallback runs
    simp only [List.nil_append]
    refine photoNTC_of_const
      (fullFallback P ((jsOrOpt acc0.registration r).getD "") acc0).acc.photoUrl ?_
    rw [List.forall_mem_append]
    refine ⟨fullFallback_photo_const P _ _, ?_⟩
    intro x hx
    rw [List.mem_singleton] at hx
    subst hx
    rfl
  · -- no callsign block, no target: only the classification write happens
    simp only [List.nil_append]
    exact photoNTC_of_const none
      (by
        intro x hx
        rw [List.mem_singleton] at hx
        subst hx
        exact h)

/-- Across one whole resolution the photo column of the accumulator history
is a run of `none` followed by a constant run: no intermediate state ever
goes from one non-null photo to another, or back to null. -/

theorem photoNTC_singleton (a : AircraftInfo) : photoNTC [a] :=
  ⟨[], [a], a.photoUrl, rfl, by simp, by
    intro x hx
    rw [List.mem_singleton] at hx
    subst hx
    rfl⟩

/-- Across one whole resolution the photo column of the accumulator history
is a run of `none` followed by a constant run: no intermediate state ever
goes from one non-null photo to another, or back to null. -/
theorem resolve_photoNTC (P : Providers) (i r cs : Option String) :
    photoNTC (resolve P i r cs).steps := by
  unfold resolve
  dsimp only
  split_ifs with h1 h2 h3 h4 h5 h6 h7 h8
  all_goals simp only [List.cons_append, List.nil_append, List.append_assoc]
  · -- OpenSky, Supabase fallback, early return, photo found
    refine photoNTC_cons_none rfl (photoNTC_cons_none ?_ (photoNTC_cons_none ?_
      (photoNTC_cons_none ?_ (photoNTC_singleton _)))) <;>
      simp [spread_photoUrl, getOpenSkyInfo_photoUrl, getSupabaseAircraftInfo_photoUrl]
  · -- OpenSky, Supabase fallback, early return, no photo
    refine photoNTC_cons_none rfl (photoNTC_cons_none ?_ (photoNTC_cons_none ?_
      (photoNTC_cons_none ?_ (photoNTC_singleton _)))) <;>
      simp [spread_photoUrl, getOpenSkyInfo_photoUrl, getSupabaseAircraftInfo_photoUrl]
  · -- OpenSky, Supabase fallback, early return without a registration
    refine photoNTC_cons_none rfl (photoNTC_cons_none ?_ (photoNTC_cons_none ?_
      (photoNTC_singleton _))) <;>
      simp [spread_photoUrl, getOpenSkyInfo_photoUrl, getSupabaseAircraftInfo_photoUrl]
  · -- OpenSky, Supabase fallback, no early return: continue after primary
    refine photoNTC_cons_none rfl (photoNTC_cons_none ?_ (photoNTC_cons_none ?_
      (afterPrimary_photoNTC P r cs _ ?_))) <;>
      simp [spread_photoUrl, getOpenSkyInfo_photoUrl, getSupabaseAircraftInfo_photoUrl]
  · -- OpenSky only, early return, photo found
    refine photoNTC_cons_none rfl (photoNTC_cons_none ?_ (photoNTC_cons_none ?_
      (photoNTC_singleton _))) <;>
      simp [spread_photoUrl, getOpenSkyInfo_photoUrl]
  · -- OpenSky only, early return, no photo
    refine photoNTC_cons_none rfl (photoNTC_cons_none ?_ (photoNTC_cons_none ?_
      (photoNTC_singleton _))) <;>
      simp [spread_photoUrl, getOpenSkyInfo_photoUrl]
  · -- OpenSky only, early return without a registration
    refine photoNTC_cons_none rfl (photoNTC_cons_none ?_ (photoNTC_singleton _)) <;>
      simp [spread_photoUrl, getOpenSkyInfo_photoUrl]
  · -- OpenSky only, no early return: continue after primary
    refine photoNTC_cons_none rfl (photoNTC_cons_none ?_
      (afterPrimary_photoNTC P r cs _ ?_)) <;>
      simp [spread_photoUrl, getOpenSkyInfo_photoUrl]
  · -- no transponder code: continue after primary immediately
    exact photoNTC_cons_none rfl (afterPrimary_photoNTC P r cs _ rfl)

/-- Claim C2: within one resolution of the aircraft-info GET handler, once
`photoUrl` holds a non-null value at some point of the accumulator history,
every later point still holds exactly that value: no subsequent provider
call replaces or clears it (a photo call finding a value already stored
leaves it unchanged, and an explicit fetch may only set it while null). -/
theorem C2_photoUrl_first_write_wins (P : Providers) (i r cs : Option String)
    (a b : Nat) (v : String) (w : Option String) (hab : a ≤ b)
    (ha : ((resolve P i r cs).steps.map (fun x => x.photoUrl)).get? a = some (some v))
    (hb : ((resolve P i r cs).steps.map (fun x => x.photoUrl)).get? b = some w) :
    w = some v :=
  fieldStable_photo_of_photoNTC (resolve_photoNTC P i r cs) a b v w hab ha hb

/-- Witness for C2 on a concrete run: Planespotters sets the photo at step 1
of a registration-only resolution and the final state (step 4) still holds
the same URL. -/
theorem C2_photoUrl_first_write_wins_witness :
    ∃ u, ((resolve photoProviders none (some "SP-LRD") none).steps.map
      (fun x => x.photoUrl)).get? 4 = some u ∧ u = some "http://photo" :=
  ⟨some "http://photo", by decide,
    C2_photoUrl_first_write_wins photoProviders none (some "SP-LRD") none 1 4
      "http://photo" (some "http://photo") (by omega) (by decide) (by decide)⟩

/-- Claim C1 (counterexample): the non-photo fields are NOT first-non-null-
wins.  With OpenSky contributing `owner = "Alice"` (and no registration or
model) and Planespotters later returning aircraft details whose owner field
is null, the handler's own merge erases the owner: the accumulator history
holds `some "Alice"` at step 1 and `none` at step 3, after the later
Planespotters call. -/
theorem C1_counterexample :
    ¬ fieldStable (fun a => a.owner)
      (resolve mergeCexProviders (some "abc123") (some "SP-LRD") none).steps := by
  intro hstable
  have h3 := hstable 1 3 "Alice" none (by omega) (by decide) (by decide)
  exact absurd h3 (by decide)

theorem fullFallback_mergeAll (P : Providers) (t : String) (acc0 : AircraftInfo) :
    nonPhotoAgree (fullFallback P t acc0).acc
      (mergeAll acc0 (fullFallback P t acc0).contribs) := by
  unfold fullFallback mergeAll
  dsimp only
  split_ifs <;> exact ⟨rfl, rfl, rfl, rfl, rfl, rfl, rfl⟩

theorem afterPrimary_mergeAll (P : Providers) (r cs : Option String)
    (acc0 : AircraftInfo) :
    nonPhotoAgree (afterPrimary P r cs acc0).acc
      (mergeAll acc0 (afterPrimary P r cs acc0).contribs) := by
  unfold afterPrimary
  dsimp only
  split_ifs with c1 c2 c3 c4 c5 c6
  · -- derivation succeeded; the registration write then the full fallback
    simp only [List.cons_append, List.nil_append]
    exact fullFallback_mergeAll P _ _
  · exact absurd c4 (by simp only [Bool.and_eq_true, Bool.not_eq_true'] at c1; simp [c1.1])
  · exact ⟨rfl, rfl, rfl, rfl, rfl, rfl, rfl⟩
  · exact absurd c5 (by simp only [Bool.and_eq_true, Bool.not_eq_true'] at c1; simp [c1.1])
  · exact ⟨rfl, rfl, rfl, rfl, rfl, rfl, rfl⟩
  · -- no callsign block; full fallback on the target registration
    simp only [List.nil_append]
    exact fullFallback_mergeAll P _ _
  · exact ⟨rfl, rfl, rfl, rfl, rfl, rfl, rfl⟩

theorem resolve_mergeAll (P : Providers) (i r cs : Option String) :
    nonPhotoAgree (resolve P i r cs).acc
      (mergeAll {} (resolve P i r cs).contribs) := by
  unfold resolve
  dsimp only
  split_ifs with h1 h2 h3 h4 h5 h6 h7 h8
  all_goals simp only [List.cons_append, List.nil_append, List.append_assoc]
  · exact ⟨rfl, rfl, rfl, rfl, rfl, rfl, rfl⟩
  · exact ⟨rfl, rfl, rfl, rfl, rfl, rfl, rfl⟩
  · exact ⟨rfl, rfl, rfl, rfl, rfl, rfl, rfl⟩
  · exact afterPrimary_mergeAll P r cs _
  · exact ⟨rfl, rfl, rfl, rfl, rfl, rfl, rfl⟩
  · exact ⟨rfl, rfl, rfl, rfl, rfl, rfl, rfl⟩
  · exact ⟨rfl, rfl, rfl, rfl, rfl, rfl, rfl⟩
  · exact afterPrimary_mergeAll P r cs _
  · exact afterPrimary_mergeAll P r cs _

/-- Claim C1 (amended): the merge is spread-based last-write-wins, not
first-non-null-wins.  For every field other than `photoUrl` and `category`,
the final merged value equals the result of folding plain object spread over
the contributions in invocation order: a later contribution that carries the
field (even as null) replaces the earlier value, and only contributions that
omit the field (absorbed failures) leave it intact. -/
theorem C1_amended_last_write_wins (P : Providers) (i r cs : Option String) :
    ((resolve P i r cs).acc.registration
        = (mergeAll {} (resolve P i r cs).contribs).registration) ∧
    ((resolve P i r cs).acc.model
        = (mergeAll {} (resolve P i r cs).contribs).model) ∧
    ((resolve P i r cs).acc.manufacturer
        = (mergeAll {} (resolve P i r cs).contribs).manufacturer) ∧
    ((resolve P i r cs).acc.owner
        = (mergeAll {} (resolve P i r cs).contribs).owner) ∧
    ((resolve P i r cs).acc.operator
        = (mergeAll {} (resolve P i r cs).contribs).operator) ∧
    ((resolve P i r cs).acc.yearBuilt
        = (mergeAll {} (resolve P i r cs).contribs).yearBuilt) ∧
    ((resolve P i r cs).acc.engineType
        = (mergeAll {} (resolve P i r cs).contribs).engineType) :=
  resolve_mergeAll P i r cs

/-- Claim C3 (counterexample): the classifier does not map
`"Boeing 777-300ER"` to the Heavy code `A5` — the heavy rule matches the
literal token `"B777"`, which does not occur in the spelled-out model name,
and no other rule matches either, so the result is `"unknown"`. -/
theorem C3_counterexample :
    getAircraftCategory (some "Boeing 777-300ER") = "unknown" ∧
    getAircraftCategory (some "Boeing 777-300ER") ≠ "A5" := by
  decide

/-- Claim C3 (amended): the classifier scenarios hold as stated except for
the spelled-out `"Boeing 777-300ER"`, which classifies as `"unknown"`
(none of the substring tokens `A350/A380/B747/B777/B787/B767`, `A3/B7/...`,
regional, small or helicopter tokens occur in it); the compact type-code
form `"B777-300ER"` does classify as Heavy `A5`.  The other four scenarios
are as the claim states. -/
theorem C3_amended_scenarios :
    getAircraftCategory (some "Boeing 777-300ER") = "unknown" ∧
    getAircraftCategory (some "B777-300ER") = "A5" ∧
    getAircraftCategory (some "ATR 72-600") = "A2" ∧
    getAircraftCategory (some "Cessna 172") = "A1" ∧
    getAircraftCategory (some "AW139") = "B1" ∧
    getAircraftCategory none = "unknown" := by
  decide

/-- Claim C4 (counterexample): the prefix scan does not choose the LONGEST
matching table prefix.  For the callsign `"DABC"` both `"D"` and the longer
`"DA"` are table entries that match with a valid 1-3 character alphanumeric
suffix, yet the function returns `"D-ABC"` (the first match in table order),
not `"DA-BC"` as the longest-prefix rule would dictate. -/
theorem C4_counterexample :
    extractRegistrationFromCallsign (some "DABC") = some "D-ABC" ∧
    "DA" ∈ registrationPrefixList ∧
    strStartsWith "DABC" "DA" = true ∧
    (strDrop "DABC" (strLen "DA")).data.length = 2 ∧
    (strDrop "DABC" (strLen "DA")).data.all isUpperAlnum = true ∧
    (some "D-ABC" : Option String) ≠ some "DA-BC" := by
  decide

theorem scanRegPrefixes_sound (l : List String) :
    ∀ clean out : String, scanRegPrefixes l clean = some out →
      ∃ p, p ∈ l ∧ strStartsWith clean p = true ∧
        1 ≤ (strDrop clean (strLen p)).data.length ∧
        (strDrop clean (strLen p)).data.length ≤ 3 ∧
        (strDrop clean (strLen p)).data.all isUpperAlnum = true ∧
        out = p ++ "-" ++ strDrop clean (strLen p) := by
  induction l with
  | nil => intro clean out h; simp [scanRegPrefixes] at h
  | cons p ps ih =>
    intro clean out h
    unfold scanRegPrefixes at h
    by_cases h1 : strStartsWith clean p = true
    · rw [if_pos h1] at h
      dsimp only at h
      by_cases h2 :
          ((strDrop clean (strLen p)).data.length ≥ 1 &&
            (strDrop clean (strLen p)).data.length ≤ 3) = true
      · rw [if_pos h2] at h
        by_cases h3 : (strDrop clean (strLen p)).data.all isUpperAlnum = true
        · rw [if_pos h3] at h
          obtain ⟨hlen1, hlen3⟩ := by
            simpa [Bool.and_eq_true, decide_eq_true_eq] using h2
          exact ⟨p, List.mem_cons_self p ps, h1, hlen1, hlen3, h3,
            (Option.some_injective _ h).symm⟩
        · rw [if_neg h3] at h
          obtain ⟨q, hq, rest⟩ := ih clean out h
          exact ⟨q, List.mem_cons_of_mem p hq, rest⟩
      · rw [if_neg h2] at h
        obtain ⟨q, hq, rest⟩ := ih clean out h
        exact ⟨q, List.mem_cons_of_mem p hq, rest⟩
    · rw [if_neg h1] at h
      obtain ⟨q, hq, rest⟩ := ih clean out h
      exact ⟨q, List.mem_cons_of_mem p hq, rest⟩

/-- Claim C4 (amended): the function trims and uppercases its input and
matches the cleaned callsign against the static table, choosing the FIRST
table entry (in the table's fixed order) whose match leaves a valid 1-3
character alphanumeric suffix — not the longest — and formats the result as
`PREFIX-SUFFIX`; it returns null when no entry qualifies.  The scenario
values hold: `"SPLRD"` gives `"SP-LRD"` and `"SPLRD1"` gives null; every
non-null result decomposes as a table prefix plus a valid suffix. -/
theorem C4_amended_first_match (cs out : String)
    (h : extractRegistrationFromCallsign (some cs) = some out) :
    (extractRegistrationFromCallsign (some "SPLRD") = some "SP-LRD" ∧
     extractRegistrationFromCallsign (some "SPLRD1") = none ∧
     extractRegistrationFromCallsign (some "  splrd ") = some "SP-LRD" ∧
     extractRegistrationFromCallsign none = none ∧
     extractRegistrationFromCallsign (some "DABC") = some "D-ABC") ∧
    ∃ p, p ∈ registrationPrefixList ∧
      strStartsWith (jsUpper (jsTrim cs)) p = true ∧
      1 ≤ (strDrop (jsUpper (jsTrim cs)) (strLen p)).data.length ∧
      (strDrop (jsUpper (jsTrim cs)) (strLen p)).data.length ≤ 3 ∧
      (strDrop (jsUpper (jsTrim cs)) (strLen p)).data.all isUpperAlnum = true ∧
      out = p ++ "-" ++ strDrop (jsUpper (jsTrim cs)) (strLen p) := by
  refine ⟨⟨by decide, by decide, by decide, by decide, by decide⟩, ?_⟩
  unfold extractRegistrationFromCallsign at h
  by_cases hc : jsTruthy (some cs) = true
  · rw [if_neg (by simp [hc])] at h
    exact scanRegPrefixes_sound registrationPrefixList _ out h
  · rw [if_pos (by simp [Bool.not_eq_true] at hc ⊢; exact hc)] at h
    exact absurd h (by simp)

/-- Witness for C4 on the concrete callsign `"SPLRD"`: the result
`"SP-LRD"` decomposes as table prefix `"SP"` plus valid suffix. -/
theorem C4_amended_first_match_witness :
    ∃ p, p ∈ registrationPrefixList ∧
      strStartsWith (jsUpper (jsTrim "SPLRD")) p = true ∧
      1 ≤ (strDrop (jsUpper (jsTrim "SPLRD")) (strLen p)).data.length ∧
      (strDrop (jsUpper (jsTrim "SPLRD")) (strLen p)).data.length ≤ 3 ∧
      (strDrop (jsUpper (jsTrim "SPLRD")) (strLen p)).data.all isUpperAlnum = true ∧
      "SP-LRD" = p ++ "-" ++ strDrop (jsUpper (jsTrim "SPLRD")) (strLen p) :=
  (C4_amended_first_match "SPLRD" "SP-LRD" (by decide)).2

/-- Claim C5: a request with neither a (truthy) transponder code nor a
(truthy) registration is answered with the 400 insufficient-identifier
error and no provider is invoked; a request supplying at least one of the
two never receives that error. -/
theorem C5_insufficient_identifier (cache : CacheState) (now : Nat) (P : Providers)
    (icao24 registration callsign : Option String) :
    ((jsTruthy icao24 = false ∧ jsTruthy registration = false) →
      (GETaircraftInfo cache now P icao24 registration callsign).resp
          = ApiResponse.badRequest ∧
      (GETaircraftInfo cache now P icao24 registration callsign).trace = []) ∧
    ((jsTruthy icao24 = true ∨ jsTruthy registration = true) →
      (GETaircraftInfo cache now P icao24 registration callsign).resp
          ≠ ApiResponse.badRequest) := by
  constructor
  · rintro ⟨h1, h2⟩
    unfold GETaircraftInfo
    rw [if_pos (by simp [h1, h2])]
    exact ⟨rfl, rfl⟩
  · intro hor
    unfold GETaircraftInfo
    rw [if_neg (by rcases hor with h | h <;> simp [h])]
    dsimp only
    split
    · split_ifs <;> simp
    · simp

/-- Witness for C5: a callsign-only request is rejected with 400 and an
empty trace, while an icao24-only request is not rejected. -/
theorem C5_insufficient_identifier_witness :
    ((GETaircraftInfo [] 0 failingProviders none none (some "SPLRD")).resp
        = ApiResponse.badRequest ∧
     (GETaircraftInfo [] 0 failingProviders none none (some "SPLRD")).trace = []) ∧
    (GETaircraftInfo [] 0 failingProviders (some "abc123") none none).resp
        ≠ ApiResponse.badRequest :=
  ⟨(C5_insufficient_identifier [] 0 failingProviders none none (some "SPLRD")).1
      ⟨by decide, by decide⟩,
   (C5_insufficient_identifier [] 0 failingProviders (some "abc123") none none).2
      (Or.inl (by decide))⟩

/-- Claim C6: once the Start validation passes, the handler always returns a
success record, whatever every provider does; and in the worst case — every
provider failing — the record is all-null except `category = "unknown"`. -/
theorem C6_pipeline_never_fails (cache : CacheState) (now : Nat) (P : Providers)
    (icao24 registration callsign : Option String) :
    ((jsTruthy icao24 = true ∨ jsTruthy registration = true) →
      ∃ d c, (GETaircraftInfo cache now P icao24 registration callsign).resp
          = ApiResponse.ok d c) ∧
    (GETaircraftInfo [] 0 failingProviders (some "abc123") none none).resp
        = ApiResponse.ok worstCaseRecord false := by
  constructor
  · intro hor
    unfold GETaircraftInfo
    rw [if_neg (by rcases hor with h | h <;> simp [h])]
    dsimp only
    split
    · split_ifs
      · exact ⟨_, _, rfl⟩
      · exact ⟨_, _, rfl⟩
    · exact ⟨_, _, rfl⟩
  · decide

/-- Witness for C6: a registration-only request with every provider failing
still yields a success response. -/
theorem C6_pipeline_never_fails_witness :
    ∃ d c, (GETaircraftInfo [] 5 failingProviders none (some "SP-LRD") none).resp
        = ApiResponse.ok d c :=
  (C6_pipeline_never_fails [] 5 failingProviders none (some "SP-LRD") none).1
    (Or.inr (by decide))

theorem cacheGet_cons_self (k : String) (d : AircraftInfo) (t : Nat) (c : CacheState) :
    cacheGet (⟨k, d, t⟩ :: c) k = some (d, t) := by
  unfold cacheGet
  rw [List.find?_cons_of_pos _ (by simp)]

/-- A reply `ok d (cached := false)` implies the request passed validation
and the handler committed exactly the entry `(key, d, now)` on top of the
cache, keyed by `icao24 || registration || ''`. -/
theorem GET_ok_false_commit (cache : CacheState) (now : Nat) (P : Providers)
    (icao24 registration callsign : Option String) (d : AircraftInfo)
    (h : (GETaircraftInfo cache now P icao24 registration callsign).resp
        = ApiResponse.ok d false) :
    (GETaircraftInfo cache now P icao24 registration callsign).cache
        = ⟨(jsOrOpt icao24 registration).getD "", d, now⟩ :: cache ∧
    ¬(!(jsTruthy icao24) && !(jsTruthy registration)) = true := by
  unfold GETaircraftInfo at h ⊢
  by_cases hg : (!(jsTruthy icao24) && !(jsTruthy registration)) = true
  · rw [if_pos hg] at h
    exact absurd h (by simp)
  · rw [if_neg hg] at h ⊢
    dsimp only at h ⊢
    refine ⟨?_, hg⟩
    rcases hcg : cacheGet cache ((jsOrOpt icao24 registration).getD "") with _ | ⟨d0, ts⟩
    · simp only [hcg] at h ⊢
      obtain ⟨hd, -⟩ := ApiResponse.ok.inj h
      rw [hd]
    · simp only [hcg] at h ⊢
      split_ifs at h ⊢ with hf
      · exact absurd h (by simp)
      · obtain ⟨hd, -⟩ := ApiResponse.ok.inj h
        rw [hd]

/-- Claim C7: resolving an identifier bundle and resolving it again while
the committed entry's age is below the TTL performs no provider invocation
the second time and returns a record value-equal to the first; the entry is
keyed by the transponder code, or by the registration when no transponder
code was supplied (`icao24 || registration || ''`). -/
theorem C7_cache_roundtrip (cache : CacheState) (now1 now2 : Nat) (P1 P2 : Providers)
    (icao24 registration callsign : Option String) (d : AircraftInfo)
    (h12 : now1 ≤ now2)
    (httl : (now2 : Int) - (now1 : Int) < (CACHE_DURATION : Int))
    (hfirst : (GETaircraftInfo cache now1 P1 icao24 registration callsign).resp
        = ApiResponse.ok d false) :
    (GETaircraftInfo (GETaircraftInfo cache now1 P1 icao24 registration callsign).cache
        now2 P2 icao24 registration callsign).resp = ApiResponse.ok d true ∧
    (GETaircraftInfo (GETaircraftInfo cache now1 P1 icao24 registration callsign).cache
        now2 P2 icao24 registration callsign).trace = [] ∧
    (GETaircraftInfo cache now1 P1 icao24 registration callsign).cache
        = ⟨(jsOrOpt icao24 registration).getD "", d, now1⟩ :: cache := by
  obtain ⟨hcache, hg⟩ :=
    GET_ok_false_commit cache now1 P1 icao24 registration callsign d hfirst
  rw [hcache]
  refine ⟨?_, ?_, rfl⟩ <;>
  · unfold GETaircraftInfo
    rw [if_neg hg]
    dsimp only
    rw [cacheGet_cons_self]
    dsimp only
    rw [if_pos httl]

/-- Witness for C7: a concrete failing-provider resolution of `"abc123"`
followed by a second request 1000 ms later is served from cache with no
provider invocation and a value-equal record. -/
theorem C7_cache_roundtrip_witness :
    (GETaircraftInfo (GETaircraftInfo [] 0 failingProviders (some "abc123") none none).cache
        1000 failingProviders (some "abc123") none none).resp
        = ApiResponse.ok worstCaseRecord true ∧
    (GETaircraftInfo (GETaircraftInfo [] 0 failingProviders (some "abc123") none none).cache
        1000 failingProviders (some "abc123") none none).trace = [] ∧
    (GETaircraftInfo [] 0 failingProviders (some "abc123") none none).cache
        = ⟨(jsOrOpt (some "abc123") none).getD "", worstCaseRecord, 0⟩ :: [] :=
  C7_cache_roundtrip [] 0 1000 failingProviders failingProviders
    (some "abc123") none none worstCaseRecord (by omega) (by decide) (by decide)

/-- Claim C8 (counterexample): after a resolution in which the sole queried
provider (OpenSky) contributed nothing, the all-null merged record IS cached
under the identifier: a second resolution of the same identifier 1000 ms
later performs no provider invocation at all — it is served the failed
(null) contribution from the response cache instead of retrying. -/
theorem C8_counterexample :
    (GETaircraftInfo [] 0 failingProviders (some "abc123") none none).trace
        = [Ev.opensky "abc123"] ∧
    (GETaircraftInfo [] 0 failingProviders (some "abc123") none none).resp
        = ApiResponse.ok worstCaseRecord false ∧
    (GETaircraftInfo (GETaircraftInfo [] 0 failingProviders (some "abc123") none none).cache
        1000 failingProviders (some "abc123") none none).trace = [] ∧
    (GETaircraftInfo (GETaircraftInfo [] 0 failingProviders (some "abc123") none none).cache
        1000 failingProviders (some "abc123") none none).resp
        = ApiResponse.ok worstCaseRecord true := by
  decide

theorem resolve_trace_opensky (P : Providers) (i r cs : Option String)
    (hi : jsTruthy i = true) :
    Ev.opensky (i.getD "") ∈ (resolve P i r cs).trace := by
  unfold resolve
  rw [if_pos hi]
  dsimp only
  split_ifs <;> exact List.mem_cons_self _ _

/-- The first request on an empty cache commits the resolved record under
`icao24 || registration || ''`. -/
theorem GET_nil_cache (now : Nat) (P : Providers)
    (icao24 registration callsign : Option String)
    (hg : ¬(!(jsTruthy icao24) && !(jsTruthy registration)) = true) :
    (GETaircraftInfo [] now P icao24 registration callsign).cache
      = [⟨(jsOrOpt icao24 registration).getD "",
          (resolve P icao24 registration callsign).acc, now⟩] := by
  unfold GETaircraftInfo
  rw [if_neg hg]
  rfl

/-- Claim C8 (amended): no per-provider negative entry is stored, but the
merged record — even when a provider contributed nothing — is cached under
the identifier for the response-cache TTL; the failed provider is retried
only by a resolution that does not hit a fresh cache entry, e.g. once the
entry's age reaches the TTL, at which point OpenSky is invoked again. -/
theorem C8_amended_retry_after_ttl (now1 now2 : Nat) (P1 P2 : Providers)
    (icao24 registration callsign : Option String)
    (hi : jsTruthy icao24 = true)
    (httl : (CACHE_DURATION : Int) ≤ (now2 : Int) - (now1 : Int)) :
    Ev.opensky (icao24.getD "")
      ∈ (GETaircraftInfo (GETaircraftInfo [] now1 P1 icao24 registration callsign).cache
          now2 P2 icao24 registration callsign).trace := by
  have hg : ¬(!(jsTruthy icao24) && !(jsTruthy registration)) = true := by simp [hi]
  rw [GET_nil_cache now1 P1 icao24 registration callsign hg]
  unfold GETaircraftInfo
  rw [if_neg hg]
  dsimp only
  rw [cacheGet_cons_self]
  dsimp only
  rw [if_neg (by omega)]
  exact resolve_trace_opensky P2 icao24 registration callsign hi

/-- Witness for C8 (amended): with the second request arriving exactly at the
TTL, the OpenSky provider is invoked again for `"abc123"`. -/
theorem C8_amended_retry_after_ttl_witness :
    Ev.opensky ((some "abc123" : Option String).getD "")
      ∈ (GETaircraftInfo
          (GETaircraftInfo [] 0 failingProviders (some "abc123") none none).cache
          CACHE_DURATION failingProviders (some "abc123") none none).trace :=
  C8_amended_retry_after_ttl 0 CACHE_DURATION failingProviders failingProviders
    (some "abc123") none none (by decide) (by decide)

/-- Claim C9 (counterexample): for the dataset row written exactly as the
claim writes it — first cell `icao24` unquoted, the rest quoted — the
lookup of registration `"SP-LRD"` returns the empty contribution, not a
record with model `"737-800"`: the parser splits rows on the literal
sequence `","`, so the missing quote merges the first two cells
(`icao24,SP-LRD`) and shifts every column, making the registration cell
read `"BOE"`. -/
theorem C9_counterexample :
    getOpenSkyCSVInfo (csvHeaderRow ++ "\n" ++ csvLiteralRow) "SP-LRD"
        = ({} : PartInfo) ∧
    (getOpenSkyCSVInfo (csvHeaderRow ++ "\n" ++ csvLiteralRow) "SP-LRD").model
        ≠ some (some "737-800") ∧
    ((jsSplit csvLiteralRow "\",\"").map stripQuotes).getD 1 "" = "BOE" := by
  decide

/-- Claim C9 (amended): the adapter skips the header row and parses rows
positionally, and the scenario holds once the row is written in the
dataset's actual fully-quoted form: for `"icao24","SP-LRD","BOE","Boeing",
"737-800",...` the query for `"SP-LRD"` returns model `"737-800"` and
manufacturer `"Boeing"`; the same row placed in the header position is
skipped and yields nothing. -/
theorem C9_amended_quoted_row :
    (getOpenSkyCSVInfo (csvHeaderRow ++ "\n" ++ csvQuotedRow) "SP-LRD").model
        = some (some "737-800") ∧
    (getOpenSkyCSVInfo (csvHeaderRow ++ "\n" ++ csvQuotedRow) "SP-LRD").manufacturer
        = some (some "Boeing") ∧
    (getOpenSkyCSVInfo (csvHeaderRow ++ "\n" ++ csvQuotedRow) "SP-LRD").registration
        = some (some "SP-LRD") ∧
    getOpenSkyCSVInfo csvQuotedRow "SP-LRD" = ({} : PartInfo) := by
  decide

theorem fullFallback_no_derive (P : Providers) (t : String) (acc : AircraftInfo)
    (x : String) : Ev.deriveFromCallsign x ∉ (fullFallback P t acc).trace := by
  unfold fullFallback
  dsimp only
  split_ifs <;> simp

theorem afterPrimary_no_derive (P : Providers) (r cs : Option String)
    (acc : AircraftInfo) (x : String)
    (ht : jsTruthy (jsOrOpt acc.registration r) = true) :
    Ev.deriveFromCallsign x ∉ (afterPrimary P r cs acc).trace := by
  unfold afterPrimary
  dsimp only
  split_ifs with c1 c2 c3
  · exact absurd ht
      (by simp only [Bool.and_eq_true, Bool.not_eq_true'] at c1; simp [c1.1])
  · exact absurd ht
      (by simp only [Bool.and_eq_true, Bool.not_eq_true'] at c1; simp [c1.1])
  · exact absurd ht
      (by simp only [Bool.and_eq_true, Bool.not_eq_true'] at c1; simp [c1.1])
  · intro hmem
    dsimp only at hmem
    simp only [List.nil_append] at hmem
    exact fullFallback_no_derive P _ _ x hmem

/-- Claim C10: a request carrying only a callsign (no truthy transponder
code, no truthy registration) is rejected with the 400 insufficient-
identifier response before anything runs — no provider call and no
callsign-derivation attempt, even when a registration would be derivable;
and whenever a derivation attempt (or the callsign-as-registration photo
fallback, which shares the same block) appears in a trace, the request
supplied a transponder code. -/
theorem C10_callsign_only_rejected (cache : CacheState) (now : Nat) (P : Providers)
    (icao24 registration callsign : Option String) :
    ((jsTruthy icao24 = false ∧ jsTruthy registration = false) →
      (GETaircraftInfo cache now P icao24 registration callsign).resp
          = ApiResponse.badRequest ∧
      (GETaircraftInfo cache now P icao24 registration callsign).trace = []) ∧
    (∀ x, Ev.deriveFromCallsign x
        ∈ (GETaircraftInfo cache now P icao24 registration callsign).trace →
      jsTruthy icao24 = true) := by
  constructor
  · rintro ⟨h1, h2⟩
    unfold GETaircraftInfo
    rw [if_pos (by simp [h1, h2])]
    exact ⟨rfl, rfl⟩
  · intro x
    by_cases hi : jsTruthy icao24 = true
    · exact fun _ => hi
    · intro hmem
      exfalso
      have hi2 : jsTruthy icao24 = false := by
        cases hj : jsTruthy icao24
        · rfl
        · exact absurd hj hi
      unfold GETaircraftInfo at hmem
      by_cases hg : (!(jsTruthy icao24) && !(jsTruthy registration)) = true
      · rw [if_pos hg] at hmem
        exact (List.not_mem_nil _) hmem
      · rw [if_neg hg] at hmem
        dsimp only at hmem
        have hr : jsTruthy registration = true := by
          cases hj : jsTruthy registration
          · exact absurd (by simp [hi2, hj]) hg
          · rfl
        have hnd : Ev.deriveFromCallsign x
            ∉ (resolve P icao24 registration callsign).trace := by
          unfold resolve
          rw [if_neg (by simp [hi2])]
          dsimp only
          exact afterPrimary_no_derive P registration callsign {} x
            (by simpa [jsOrOpt, jsTruthy] using hr)
        rcases hcg : cacheGet cache ((jsOrOpt icao24 registration).getD "")
            with _ | ⟨d0, ts⟩
        · simp only [hcg] at hmem
          exact hnd hmem
        · simp only [hcg] at hmem
          split_ifs at hmem
          · exact (List.not_mem_nil _) hmem
          · exact hnd hmem

/-- Witness for C10: the derivable callsign `"SPLRD"` alone is still
rejected with 400 and an empty trace, and a concrete icao24-plus-callsign
run that does attempt derivation certifies the transponder code was
supplied. -/
theorem C10_callsign_only_rejected_witness :
    ((GETaircraftInfo [] 0 failingProviders none none (some "SPLRD")).resp
        = ApiResponse.badRequest ∧
     (GETaircraftInfo [] 0 failingProviders none none (some "SPLRD")).trace = []) ∧
    extractRegistrationFromCallsign (some "SPLRD") = some "SP-LRD" ∧
    jsTruthy (some "abc123") = true :=
  ⟨(C10_callsign_only_rejected [] 0 failingProviders none none (some "SPLRD")).1
      ⟨by decide, by decide⟩,
   by decide,
   (C10_callsign_only_rejected [] 0 failingProviders (some "abc123") none
      (some "QQQQ")).2 "QQQQ" (by decide)⟩
